import Mathlib

/-!
Shallow embedding of the aggregation / routing logic of the patient-adherence
backend (the Lambda handlers under `src/backend/lambda/`), together with
theorems settling the specification claims about it.

Numbers are modelled as exact rationals (the handlers compute on
`decimal.Decimal` values deserialized from the record store, whose arithmetic
on these inputs is exact decimal arithmetic).  Python's `round(x, 3)` is
round-half-to-even at three decimal places, embedded as `round3` below.
A Python record (dict) is embedded as a structure of `Option`-valued fields:
`d.get(k, default)` becomes `field.getD default`, and `k in d` becomes
`field.isSome`.  Python's stable `list.sort(key=..., reverse=True)` is
embedded as `List.insertionSort` with the flipped key comparison, which has
the same observable behaviour as any stable descending sort by key.
`random.uniform(-0.05, 0.05)` draws are modelled as an explicit stream
`v : ℕ → ℚ` of perturbation values, one per loop iteration.
-/

namespace MLOps

/-! ## Rounding (Python `round(x, 3)` on Decimal values: half-to-even) -/

/-- Round-half-to-even to an integer, as Python's builtin `round` (and
`Decimal` rounding with the default `ROUND_HALF_EVEN` mode) behaves. -/
def pyRound (q : ℚ) : ℤ :=
  if q - ⌊q⌋ < 1/2 then ⌊q⌋
  else if 1/2 < q - ⌊q⌋ then ⌊q⌋ + 1
  else if ⌊q⌋ % 2 = 0 then ⌊q⌋ else ⌊q⌋ + 1

/-- Python's `round(x, 3)`: round-half-to-even at three decimal places. -/
def round3 (q : ℚ) : ℚ := (pyRound (q * 1000) : ℚ) / 1000

/-- Python's `max(0, min(1, q))`, used to clamp rates into [0, 1]. -/
def clamp01 (q : ℚ) : ℚ := max 0 (min 1 q)

/-! ## Substring matching (Python's `needle in path` on strings) -/

/-- Whether `pat` is an initial segment of `l`. -/
def charListHasPre : List Char → List Char → Bool
  | _, [] => true
  | [], _ :: _ => false
  | a :: as, b :: bs => a = b && charListHasPre as bs

/-- Whether `pat` occurs as a contiguous run inside `l`. -/
def charListHasSub : List Char → List Char → Bool
  | [], pat => pat.isEmpty
  | a :: t, pat => charListHasPre (a :: t) pat || charListHasSub t pat

/-- Python's `needle in hay` for strings: contiguous-substring containment. -/
def strContains (hay needle : String) : Bool :=
  charListHasSub hay.toList needle.toList

/-! ## Data model

A patient record is a mapping with optional fields.  The handlers are not
consistent about key names: `dashboard_handler.py` reads `adherence_rate` /
`risk_score`, while `medication_handler.py` and `patient_handler.py` read
`adherenceRate` / `riskScore`; the embedding carries all four as separate
optional fields, exactly as a dict can. -/

/-- One entry of a patient's `medications` list (only the `name` key is read
by the aggregation code). -/
structure MedEntry where
  name : Option String := none
deriving DecidableEq, Repr

/-- A patient record as read by the aggregation functions. -/
structure Patient where
  id : String := ""
  age : Option ℚ := none
  gender : Option String := none
  chronicConditions : List String := []
  medications : List MedEntry := []
  adherence_rate : Option ℚ := none
  adherenceRate : Option ℚ := none
  risk_score : Option ℚ := none
  riskScore : Option ℚ := none
deriving DecidableEq, Repr

/-! ## dashboard_handler.py: `get_medication_risks` -/

/-- The per-medication accumulator of `get_medication_risks`
(`medication_stats[med_name]` in the source). -/
structure MedStat where
  total_patients : ℕ
  high_risk_patients : ℕ
  adherence_sum : ℚ
deriving DecidableEq, Repr

/-- The source's `med.get('name', 'Unknown')`. -/
def medKey (m : MedEntry) : String := m.name.getD "Unknown"

/-- One inner-loop step of `get_medication_risks`: ensure a stats entry for
`n` exists and add one occurrence with adherence `adh` and high-risk flag
`high`.  A Python dict is insertion-ordered, so the stats mapping is an
association list with unique keys: a new key is appended at the end and an
existing key is updated in place. -/
def addOcc (stats : List (String × MedStat)) (n : String) (adh : ℚ) (high : Bool) :
    List (String × MedStat) :=
  match stats with
  | [] => [(n, ⟨1, if high then 1 else 0, adh⟩)]
  | (k, st) :: rest =>
    if k = n then
      (k, ⟨st.total_patients + 1,
           st.high_risk_patients + (if high then 1 else 0),
           st.adherence_sum + adh⟩) :: rest
    else (k, st) :: addOcc rest n adh high

/-- The double loop of `get_medication_risks` that fills `medication_stats`:
for each patient, for each entry of its `medications` list, add an occurrence
keyed by the medication name, carrying `patient.get('adherence_rate', 0)` and
the flag `patient.get('risk_score', 0) >= 0.7`. -/
def medication_stats (ps : List Patient) : List (String × MedStat) :=
  ps.foldl (fun stats p =>
    p.medications.foldl (fun stats m =>
      addOcc stats (medKey m) (p.adherence_rate.getD 0)
        (decide ((7 : ℚ)/10 ≤ p.risk_score.getD 0))) stats) []

/-- One element of the ranking built by `get_medication_risks`. -/
structure MedRisk where
  medicationName : String
  nonAdherenceRate : ℚ
  patientCount : ℕ
  riskLevel : String
deriving DecidableEq, Repr

/-- The body of the second loop of `get_medication_risks`: the unrounded
non-adherence rate `1 - adherence_sum / total_patients` is classified into a
risk level, and the *rounded* rate is what ends up in the output record. -/
def riskEntry (n : String) (st : MedStat) : MedRisk :=
  let nonAdh : ℚ := 1 - st.adherence_sum / (st.total_patients : ℚ)
  { medicationName := n
    nonAdherenceRate := round3 nonAdh
    patientCount := st.total_patients
    riskLevel :=
      if (3 : ℚ)/10 ≤ nonAdh then "High"
      else if (3 : ℚ)/20 ≤ nonAdh then "Medium"
      else "Low" }

/-- `get_medication_risks`: build the per-medication stats, convert them to
risk records, and stable-sort descending by the (rounded)
`nonAdherenceRate`. -/
def get_medication_risks (ps : List Patient) : List MedRisk :=
  List.insertionSort (fun a b => b.nonAdherenceRate ≤ a.nonAdherenceRate)
    ((medication_stats ps).map (fun e => riskEntry e.1 e.2))

/-! ## dashboard_handler.py: `calculate_adherence_trend` -/

/-- One element of the trend list.  The source formats the point's date as
`(now - timedelta(days=30*i)).strftime('%Y-%m')`; the embedding keeps the
number of days the point lies in the past (`daysBack = 30*i`), which orders
points exactly as their dates do (a larger `daysBack` is an older date). -/
structure TrendPoint where
  daysBack : ℕ
  adherenceRate : ℚ
  patientCount : ℕ
deriving DecidableEq, Repr

/-- The per-iteration base rate of `calculate_adherence_trend`:
`sum(p.get('adherence_rate', 0) for p in patients) / len(patients) if patients else 0`.
Note the divisor is the total record count, with a missing field contributing
0 to the sum. -/
def trendBase (ps : List Patient) : ℚ :=
  if ps.isEmpty then 0
  else (ps.map (fun p => p.adherence_rate.getD 0)).sum / (ps.length : ℚ)

/-- `calculate_adherence_trend`: one point per month index `i < months`,
at `30*i` days in the past, whose rate is the base rate perturbed by the
iteration's `random.uniform(-0.05, 0.05)` draw `v i`, clamped to [0,1] and
rounded; the list is reversed so the oldest point comes first. -/
def calculate_adherence_trend (ps : List Patient) (months : ℕ) (v : ℕ → ℚ) :
    List TrendPoint :=
  ((List.range months).map (fun i =>
    { daysBack := 30 * i
      adherenceRate := round3 (clamp01 (trendBase ps + v i))
      patientCount := ps.length })).reverse

/-! ## dashboard_handler.py: `get_dashboard_metrics` -/

/-- The body of `get_dashboard_metrics` computing `overall_adherence`:
the mean of `adherence_rate` over the records that have the key
(`[p.get('adherence_rate', 0) for p in patients if 'adherence_rate' in p]`),
with the division guarded by the list being non-empty. -/
def overall_adherence (ps : List Patient) : ℚ :=
  let adherence_rates :=
    (ps.filter (fun p => p.adherence_rate.isSome)).map (fun p => p.adherence_rate.getD 0)
  if adherence_rates.isEmpty then 0
  else adherence_rates.sum / (adherence_rates.length : ℚ)

/-- The metrics record assembled by `get_dashboard_metrics`. -/
structure DashboardMetrics where
  totalPatients : ℕ
  highRiskCount : ℕ
  mediumRiskCount : ℕ
  adherenceRate : ℚ
  adherenceTrend : List TrendPoint
  topMedications : List MedRisk
deriving DecidableEq, Repr

/-- `get_dashboard_metrics` on the scanned patient list: risk counts at the
fixed cut points (missing `risk_score` read as 0), the rounded overall
adherence rate, the 6-month trend, and the first five entries of the
medication risk ranking. -/
def get_dashboard_metrics (ps : List Patient) (v : ℕ → ℚ) : DashboardMetrics :=
  { totalPatients := ps.length
    highRiskCount :=
      (ps.filter (fun p => decide ((7 : ℚ)/10 ≤ p.risk_score.getD 0))).length
    mediumRiskCount :=
      (ps.filter (fun p =>
        decide ((2 : ℚ)/5 ≤ p.risk_score.getD 0 ∧ p.risk_score.getD 0 < (7 : ℚ)/10))).length
    adherenceRate := round3 (overall_adherence ps)
    adherenceTrend := calculate_adherence_trend ps 6 v
    topMedications := (get_medication_risks ps).take 5 }

/-! ## medication_handler.py: `generate_forecast` -/

/-- One element of the forecast list.  The source formats the date as
`(now + timedelta(days=i)).strftime('%Y-%m-%d')`; the embedding keeps the
day offset `i`. -/
structure ForecastPoint where
  dayOffset : ℕ
  predictedAdherence : ℚ
  confidenceLower : ℚ
  confidenceUpper : ℚ
deriving DecidableEq, Repr

/-- The `current_adherence` of `generate_forecast`: mean of
`p.get('adherenceRate', 0)` over all patients (the comprehension has no
filter, so the divisor is the total count), 0 for an empty list. -/
def current_adherence (ps : List Patient) : ℚ :=
  let adherence_rates := ps.map (fun p => p.adherenceRate.getD 0)
  if adherence_rates.isEmpty then 0
  else adherence_rates.sum / (adherence_rates.length : ℚ)

/-- `generate_forecast`: for each day offset `i < days`, predicted adherence
is the current mean minus `0.001*i` clamped to [0,1]; the confidence
half-width is `0.05 + 0.001*i`, the lower bound clamped below at 0 and the
upper bound clamped above at 1; all three values rounded to 3 decimals. -/
def generate_forecast (ps : List Patient) (days : ℕ) : List ForecastPoint :=
  (List.range days).map (fun (i : ℕ) =>
    let predicted := clamp01 (current_adherence ps - 1/1000 * (i : ℚ))
    let confidence_width : ℚ := 1/20 + 1/1000 * (i : ℚ)
    { dayOffset := i
      predictedAdherence := round3 predicted
      confidenceLower := round3 (max 0 (predicted - confidence_width))
      confidenceUpper := round3 (min 1 (predicted + confidence_width)) })

/-! ## medication_handler.py: `calculate_demographics` -/

/-- The four age buckets of `calculate_demographics`
(`'<30'`, `'30-49'`, `'50-64'`, `'65+'`). -/
structure AgeGroups where
  under30 : ℕ
  from30to49 : ℕ
  from50to64 : ℕ
  from65up : ℕ
deriving DecidableEq, Repr

/-- Increment a `defaultdict(int)`-style tally at key `k` (insertion-ordered
association list: update the first entry with key `k` in place, else append
a fresh entry with count 1). -/
def bumpTally (t : List (String × ℕ)) (k : String) : List (String × ℕ) :=
  match t with
  | [] => [(k, 1)]
  | (k0, c) :: rest =>
    if k0 = k then (k0, c + 1) :: rest else (k0, c) :: bumpTally rest k

/-- Total count recorded for key `k` in a tally. -/
def tallyCount (t : List (String × ℕ)) (k : String) : ℕ :=
  ((t.filter (fun e => e.1 = k)).map (fun e => e.2)).sum

/-- The result record of `calculate_demographics`. -/
structure Demographics where
  ageGroups : AgeGroups
  genderDistribution : List (String × ℕ)
  conditionDistribution : List (String × ℕ)
deriving DecidableEq, Repr

/-- The loop body of `calculate_demographics` for one patient: bucket
`patient.get('age', 50)` by the `< 30 / < 50 / < 65 / else` chain, tally
`patient.get('gender', 'Unknown')`, and tally each entry of
`patient.get('chronicConditions', [])`. -/
def demoStep (d : Demographics) (p : Patient) : Demographics :=
  let age := p.age.getD 50
  let ag := d.ageGroups
  let ag :=
    if age < 30 then { ag with under30 := ag.under30 + 1 }
    else if age < 50 then { ag with from30to49 := ag.from30to49 + 1 }
    else if age < 65 then { ag with from50to64 := ag.from50to64 + 1 }
    else { ag with from65up := ag.from65up + 1 }
  { ageGroups := ag
    genderDistribution := bumpTally d.genderDistribution (p.gender.getD "Unknown")
    conditionDistribution := p.chronicConditions.foldl bumpTally d.conditionDistribution }

/-- `calculate_demographics`: fold the per-patient step over the list,
starting from empty tallies. -/
def calculate_demographics (ps : List Patient) : Demographics :=
  ps.foldl demoStep ⟨⟨0, 0, 0, 0⟩, [], []⟩

/-! ## medication_handler.py: `compare_medications` -/

/-- One element of the comparison list built by `compare_medications`. -/
structure MedComparison where
  medicationName : String
  adherenceRate : ℚ
  patientCount : ℕ
  nonAdherenceRate : ℚ
deriving DecidableEq, Repr

/-- The patient filter of `compare_medications` (and of the other
per-medication endpoints): the patient has some `medications` entry whose
`name` key equals the requested name (the inner `break` makes this an
existence test). -/
def takesMed (p : Patient) (n : String) : Bool :=
  p.medications.any (fun m => m.name = some n)

/-- The record `compare_medications` appends for a requested name with a
non-empty patient list: mean of `p.get('adherenceRate', 0)` over the patients
taking it (unguarded division — only reached when the list is non-empty). -/
def comparisonEntry (ps : List Patient) (n : String) : MedComparison :=
  let med_patients := ps.filter (fun p => takesMed p n)
  let adherence_rates := med_patients.map (fun p => p.adherenceRate.getD 0)
  let avg_adherence := adherence_rates.sum / (adherence_rates.length : ℚ)
  { medicationName := n
    adherenceRate := round3 avg_adherence
    patientCount := med_patients.length
    nonAdherenceRate := round3 (1 - avg_adherence) }

/-- `compare_medications` on the scanned patients and the requested names:
skip empty names (`if not med_name: continue`) and names no scanned patient
takes (`if med_patients:`), append a comparison record for the rest, then
stable-sort descending by `nonAdherenceRate`; the response status is
always 200. -/
def compare_medications (ps : List Patient) (names : List String) :
    ℕ × List MedComparison :=
  let comparison := names.foldl (fun acc n =>
    if n = "" then acc
    else if (ps.filter (fun p => takesMed p n)).isEmpty then acc
    else acc ++ [comparisonEntry ps n]) []
  (200, List.insertionSort (fun a b => b.nonAdherenceRate ≤ a.nonAdherenceRate) comparison)

/-! ## patient_handler.py: `list_patients` -/

/-- The query parameters `list_patients` reads (`risk`, `condition`,
`limit` with default 50, `offset` with default 0). -/
structure PatientListQuery where
  risk : Option String := none
  condition : Option String := none
  limit : ℕ := 50
  offset : ℕ := 0

/-- `p.get('riskScore', 0)` as read by `patient_handler.py`. -/
def riskOf (p : Patient) : ℚ := p.riskScore.getD 0

/-- The `risk` query filter of `list_patients`: the three recognized values
filter by the fixed cut points; any other value — including the falsy empty
string — leaves the list unchanged. -/
def applyRiskFilter (ps : List Patient) (rf : Option String) : List Patient :=
  match rf with
  | some "high" => ps.filter (fun p => decide ((7 : ℚ)/10 ≤ riskOf p))
  | some "medium" =>
      ps.filter (fun p => decide ((2 : ℚ)/5 ≤ riskOf p ∧ riskOf p < (7 : ℚ)/10))
  | some "low" => ps.filter (fun p => decide (riskOf p < (2 : ℚ)/5))
  | _ => ps

/-- The `condition` query filter of `list_patients`: keep patients whose
`chronicConditions` list contains the value; an absent or empty (falsy)
value leaves the list unchanged. -/
def applyConditionFilter (ps : List Patient) (cf : Option String) : List Patient :=
  match cf with
  | some c => if c = "" then ps else ps.filter (fun p => decide (c ∈ p.chronicConditions))
  | none => ps

/-- The filtered list of `list_patients` before sorting. -/
def filtered_patients (ps : List Patient) (q : PatientListQuery) : List Patient :=
  applyConditionFilter (applyRiskFilter ps q.risk) q.condition

/-- The filtered list of `list_patients` after
`patients.sort(key=lambda x: x.get('riskScore', 0), reverse=True)`
(stable descending sort by risk score). -/
def sorted_patients (ps : List Patient) (q : PatientListQuery) : List Patient :=
  List.insertionSort (fun a b => riskOf b ≤ riskOf a) (filtered_patients ps q)

/-- The response body assembled by `list_patients`. -/
structure PatientListResult where
  patients : List Patient
  total : ℕ
  limit : ℕ
  offset : ℕ
deriving DecidableEq, Repr

/-- `list_patients`: filter, sort descending by risk score, and return the
slice `patients[offset : offset + limit]` together with the pre-pagination
total. -/
def list_patients (ps : List Patient) (q : PatientListQuery) : PatientListResult :=
  { patients := ((sorted_patients ps q).drop q.offset).take q.limit
    total := (sorted_patients ps q).length
    limit := q.limit
    offset := q.offset }

/-! ## Routers (`lambda_handler` dispatch of dashboard_handler.py and
genai_handler.py)

Path matching is Python substring containment on the raw path.  The
sub-handlers the router dispatches to perform store I/O, so the embedding
stops at the dispatch decision: a routed operation is a tag, and a
short-circuit error response is its status code. -/

/-- Dispatch outcome of `dashboard_handler.lambda_handler`. -/
inductive DashboardRoute where
  | metrics
  | alerts
  | trends
  | topMedications
  | failure (status : ℕ)
deriving DecidableEq, Repr

/-- The dispatch of `dashboard_handler.lambda_handler`: only GET is routed
(in the source order of the substring checks); an unmatched GET path falls
to the 404 response and any other method to the 405 response. -/
def dashboard_router (httpMethod path : String) : DashboardRoute :=
  if httpMethod = "GET" then
    if strContains path "/metrics" then .metrics
    else if strContains path "/alerts" then .alerts
    else if strContains path "/trends" then .trends
    else if strContains path "/top-medications" then .topMedications
    else .failure 404
  else .failure 405

/-- Dispatch outcome of `genai_handler.lambda_handler`. -/
inductive GenaiRoute where
  | chat
  | contextReset
  | explain
  | script
  | getContext
  | failure (status : ℕ)
deriving DecidableEq, Repr

/-- The dispatch of `genai_handler.lambda_handler`: POST paths are checked
against the four substrings, GET paths against `/context`; every unmatched
combination — a POST with no matching substring, a GET without `/context`,
and any other method — falls through to the single 404 response.  This
handler has no 405 branch. -/
def genai_router (httpMethod path : String) : GenaiRoute :=
  if httpMethod = "POST" then
    if strContains path "/chat" then .chat
    else if strContains path "/context/reset" then .contextReset
    else if strContains path "/explain" then .explain
    else if strContains path "/script" then .script
    else .failure 404
  else if httpMethod = "GET" then
    if strContains path "/context" then .getContext
    else .failure 404
  else .failure 404

/-! ## dashboard_handler.py: `acknowledge_alert` -/

/-- An alert record as stored in the alerts table (`create_alert` writes the
first six fields; acknowledgment adds the last two). -/
structure AlertRecord where
  id : String
  alertType : Option String := none
  severity : Option String := none
  patientId : Option String := none
  message : Option String := none
  createdAt : Option String := none
  acknowledgedAt : Option String := none
  acknowledgedBy : Option String := none
deriving DecidableEq, Repr

/-- The alerts table keyed by alert id. -/
def AlertStore := String → Option AlertRecord

/-- Modelled from the spec: the record-store `update(table, key, fields)`
operation used by `acknowledge_alert` (the store adapter itself — the
DynamoDB `update_item` call — is not part of the repository sources; per the
spec's Record Store Adapter section, an update sets exactly the given fields
on the record at the key, creating the record when absent, and
`acknowledge_alert` passes `SET acknowledgedAt = :timestamp,
acknowledgedBy = :user` with `ReturnValues='ALL_NEW'`).  Returns the updated
store and the record after the update. -/
def acknowledge_alert (store : AlertStore) (alertId ts user : String) :
    AlertStore × AlertRecord :=
  let existing := (store alertId).getD { id := alertId }
  let updated := { existing with acknowledgedAt := some ts, acknowledgedBy := some user }
  (fun k => if k = alertId then some updated else store k, updated)

/-! ## Shared facts about the sort relations -/

instance : IsTotal MedRisk (fun a b => b.nonAdherenceRate ≤ a.nonAdherenceRate) :=
  ⟨fun a b => le_total b.nonAdherenceRate a.nonAdherenceRate⟩

instance : IsTrans MedRisk (fun a b => b.nonAdherenceRate ≤ a.nonAdherenceRate) :=
  ⟨fun _ _ _ h1 h2 => le_trans h2 h1⟩

instance : IsTotal MedComparison (fun a b => b.nonAdherenceRate ≤ a.nonAdherenceRate) :=
  ⟨fun a b => le_total b.nonAdherenceRate a.nonAdherenceRate⟩

instance : IsTrans MedComparison (fun a b => b.nonAdherenceRate ≤ a.nonAdherenceRate) :=
  ⟨fun _ _ _ h1 h2 => le_trans h2 h1⟩

instance : IsTotal Patient (fun a b => riskOf b ≤ riskOf a) :=
  ⟨fun a b => le_total (riskOf b) (riskOf a)⟩

instance : IsTrans Patient (fun a b => riskOf b ≤ riskOf a) :=
  ⟨fun _ _ _ h1 h2 => le_trans h2 h1⟩

/-! ## Derived views of the stats fold (used to state and prove the
medication-ranking properties) -/

/-- Lookup in the insertion-ordered stats mapping. -/
def statLookup (stats : List (String × MedStat)) (n : String) : Option MedStat :=
  (stats.find? (fun e => decide (e.1 = n))).map (fun e => e.2)

/-- The keys of the stats mapping, in insertion order. -/
def statKeys (stats : List (String × MedStat)) : List String :=
  stats.map (fun e => e.1)

/-- The flattened sequence of medication-entry occurrences processed by the
double loop of `get_medication_risks`: one triple (name, adherence,
high-risk flag) per entry of each patient's `medications` list, in loop
order. -/
def occList (ps : List Patient) : List (String × ℚ × Bool) :=
  ps.flatMap (fun p => p.medications.map (fun m =>
    (medKey m, p.adherence_rate.getD 0, decide ((7 : ℚ)/10 ≤ p.risk_score.getD 0))))

/-- Number of occurrences with name `n`. -/
def occCountL (l : List (String × ℚ × Bool)) (n : String) : ℕ :=
  l.countP (fun o => decide (o.1 = n))

/-- Sum of the adherence values of the occurrences with name `n`. -/
def occAdhSumL (l : List (String × ℚ × Bool)) (n : String) : ℚ :=
  ((l.filter (fun o => decide (o.1 = n))).map (fun o => o.2.1)).sum

/-- Number of high-risk occurrences with name `n`. -/
def occHighL (l : List (String × ℚ × Bool)) (n : String) : ℕ :=
  (l.filter (fun o => decide (o.1 = n))).countP (fun o => o.2.2)

/-- Direct per-occurrence patient count of a medication: each patient
contributes once per entry of its `medications` list whose name (defaulted to
`Unknown`) matches. -/
def medOccCount (ps : List Patient) (n : String) : ℕ :=
  (ps.map (fun p => p.medications.countP (fun m => decide (medKey m = n)))).sum

/-- Direct per-occurrence adherence sum of a medication: each matching entry
contributes the patient's `adherence_rate` (default 0). -/
def medAdhSum (ps : List Patient) (n : String) : ℚ :=
  (ps.map (fun p =>
    (p.medications.countP (fun m => decide (medKey m = n)) : ℚ) *
      p.adherence_rate.getD 0)).sum

/-- The risk classification of the medication ranking, applied to the
unrounded non-adherence rate. -/
def classifyRisk (nonAdh : ℚ) : String :=
  if (3 : ℚ)/10 ≤ nonAdh then "High"
  else if (3 : ℚ)/20 ≤ nonAdh then "Medium"
  else "Low"

/-- Twenty patients with pairwise distinct risk scores, listed in descending
risk order: patient ranked `k` (1-based) has id `p<k>` and risk score
`(21-k)/20`. -/
def rankedPatients : List Patient :=
  [{ id := "p01", riskScore := some (20/20) }, { id := "p02", riskScore := some (19/20) },
   { id := "p03", riskScore := some (18/20) }, { id := "p04", riskScore := some (17/20) },
   { id := "p05", riskScore := some (16/20) }, { id := "p06", riskScore := some (15/20) },
   { id := "p07", riskScore := some (14/20) }, { id := "p08", riskScore := some (13/20) },
   { id := "p09", riskScore := some (12/20) }, { id := "p10", riskScore := some (11/20) },
   { id := "p11", riskScore := some (10/20) }, { id := "p12", riskScore := some (9/20) },
   { id := "p13", riskScore := some (8/20) }, { id := "p14", riskScore := some (7/20) },
   { id := "p15", riskScore := some (6/20) }, { id := "p16", riskScore := some (5/20) },
   { id := "p17", riskScore := some (4/20) }, { id := "p18", riskScore := some (3/20) },
   { id := "p19", riskScore := some (2/20) }, { id := "p20", riskScore := some (1/20) }]

/-! ## Helper lemmas -/

theorem pyRound_le (q : ℚ) : (pyRound q : ℚ) ≤ q + 1/2 := by
  unfold pyRound
  have hfl : (⌊q⌋ : ℚ) ≤ q := Int.floor_le q
  have hfl2 : q - 1 < (⌊q⌋ : ℚ) := Int.sub_one_lt_floor q
  split
  · linarith
  · split
    · push_cast; linarith
    · split <;> push_cast <;> linarith

theorem le_pyRound (q : ℚ) : q - 1/2 ≤ (pyRound q : ℚ) := by
  unfold pyRound
  have hfl : (⌊q⌋ : ℚ) ≤ q := Int.floor_le q
  have hfl2 : q - 1 < (⌊q⌋ : ℚ) := Int.sub_one_lt_floor q
  split
  · next h => linarith
  · split
    · push_cast; linarith
    · split <;> push_cast <;> linarith

theorem round3_le (q : ℚ) : round3 q ≤ q + 1/2000 := by
  unfold round3
  have h := pyRound_le (q * 1000)
  linarith

theorem le_round3 (q : ℚ) : q - 1/2000 ≤ round3 q := by
  unfold round3
  have h := le_pyRound (q * 1000)
  linarith

theorem adherence_filter_map_eq (ps : List Patient) :
    (ps.filter (fun p => p.adherence_rate.isSome)).map (fun p => p.adherence_rate.getD 0) =
      ps.filterMap (fun p => p.adherence_rate) := by
  induction ps with
  | nil => simp
  | cons p t ih =>
      cases h : p.adherence_rate <;>
        simp [List.filter_cons, List.filterMap_cons, h, ih]

/-- C2: the dashboard metrics `highRiskCount` counts records with risk score
(missing read as 0) at least 0.7 and `mediumRiskCount` those with risk score
in [0.4, 0.7); consequently a list in which every record has
`risk_score = 0.75` yields `highRiskCount` equal to its length and
`mediumRiskCount = 0`. -/
theorem C2_risk_counts (ps : List Patient) (v : ℕ → ℚ) :
    ((get_dashboard_metrics ps v).highRiskCount =
        ps.countP (fun p => decide ((7 : ℚ)/10 ≤ p.risk_score.getD 0)) ∧
      (get_dashboard_metrics ps v).mediumRiskCount =
        ps.countP (fun p =>
          decide ((2 : ℚ)/5 ≤ p.risk_score.getD 0 ∧ p.risk_score.getD 0 < (7 : ℚ)/10))) ∧
    ((∀ p ∈ ps, p.risk_score = some (3/4)) →
      (get_dashboard_metrics ps v).highRiskCount = ps.length ∧
        (get_dashboard_metrics ps v).mediumRiskCount = 0) := by
  refine ⟨⟨?_, ?_⟩, ?_⟩
  · simp [get_dashboard_metrics, List.countP_eq_length_filter]
  · simp [get_dashboard_metrics, List.countP_eq_length_filter]
  · intro hall
    constructor
    · show (ps.filter _).length = ps.length
      have : ps.filter (fun p => decide ((7 : ℚ)/10 ≤ p.risk_score.getD 0)) = ps := by
        apply List.filter_eq_self.mpr
        intro p hp
        rw [hall p hp]
        simp only [Option.getD_some, decide_eq_true_eq]
        norm_num
      rw [this]
    · show (ps.filter _).length = 0
      rw [List.length_eq_zero]
      apply List.filter_eq_nil_iff.mpr
      intro p hp
      rw [hall p hp]
      simp only [Option.getD_some, decide_eq_true_eq, not_and, not_lt]
      intro _
      norm_num

/-- Witness for C2 at a concrete input: three records, each with
`risk_score = 0.75`. -/
theorem C2_risk_counts_witness :
    (get_dashboard_metrics
        [{ id := "a", risk_score := some (3/4) }, { id := "b", risk_score := some (3/4) },
         { id := "c", risk_score := some (3/4) }] (fun _ => 0)).highRiskCount = 3 ∧
      (get_dashboard_metrics
        [{ id := "a", risk_score := some (3/4) }, { id := "b", risk_score := some (3/4) },
         { id := "c", risk_score := some (3/4) }] (fun _ => 0)).mediumRiskCount = 0 := by
  have h := (C2_risk_counts
    [{ id := "a", risk_score := some (3/4) }, { id := "b", risk_score := some (3/4) },
     { id := "c", risk_score := some (3/4) }] (fun _ => 0)).2 (by
      intro p hp
      simp only [List.mem_cons, List.not_mem_nil, or_false] at hp
      rcases hp with h | h | h <;> subst h <;> rfl)
  simpa using h

/-- C4: the overall adherence rate of `get_dashboard_metrics` is the
arithmetic mean of `adherence_rate` over exactly the records that define the
field, is 0 when no record defines it (in particular on the empty list), and
the division is guarded by the emptiness check, so the computation is total;
the metrics field stores this value rounded to 3 decimals. -/
theorem C4_overall_adherence (ps : List Patient) (v : ℕ → ℚ) :
    (overall_adherence ps =
      if ps.filterMap (fun p => p.adherence_rate) = [] then 0
      else (ps.filterMap (fun p => p.adherence_rate)).sum /
        ((ps.filterMap (fun p => p.adherence_rate)).length : ℚ)) ∧
    (ps.filterMap (fun p => p.adherence_rate) = [] → overall_adherence ps = 0) ∧
    overall_adherence [] = 0 ∧
    (get_dashboard_metrics ps v).adherenceRate = round3 (overall_adherence ps) := by
  have hmain : overall_adherence ps =
      if ps.filterMap (fun p => p.adherence_rate) = [] then 0
      else (ps.filterMap (fun p => p.adherence_rate)).sum /
        ((ps.filterMap (fun p => p.adherence_rate)).length : ℚ) := by
    unfold overall_adherence
    rw [adherence_filter_map_eq]
    simp [List.isEmpty_iff]
  refine ⟨hmain, ?_, by rfl, by rfl⟩
  intro hnone
  rw [hmain, if_pos hnone]

/-- Witness for C4 at concrete inputs: the empty list and a one-record list
whose record does not define `adherence_rate` both yield rate 0. -/
theorem C4_overall_adherence_witness :
    overall_adherence [] = 0 ∧ overall_adherence [{ id := "a" }] = 0 := by
  refine ⟨(C4_overall_adherence [] (fun _ => 0)).2.2.1, ?_⟩
  exact (C4_overall_adherence [{ id := "a" }] (fun _ => 0)).2.1 (by rfl)

/-- C3: each forecast point at day offset `i < days` is a deterministic
function of the current mean adherence and `i` alone: the predicted value is
the mean minus `0.001*i` clamped to [0,1], and the confidence bounds lie at
the half-width `0.05 + 0.001*i` around it, clamped into [0,1] (all rounded
to 3 decimals); with current mean 0.8 at offset 10 this gives 0.79, 0.73 and
0.85. -/
theorem C3_forecast_formula (ps : List Patient) (days i : ℕ) (h : i < days) :
    (generate_forecast ps days).length = days ∧
    (generate_forecast ps days)[i]? =
      some { dayOffset := i
             predictedAdherence :=
               round3 (clamp01 (current_adherence ps - 1/1000 * (i : ℚ)))
             confidenceLower :=
               round3 (max 0 (clamp01 (current_adherence ps - 1/1000 * (i : ℚ)) -
                 (1/20 + 1/1000 * (i : ℚ))))
             confidenceUpper :=
               round3 (min 1 (clamp01 (current_adherence ps - 1/1000 * (i : ℚ)) +
                 (1/20 + 1/1000 * (i : ℚ)))) } ∧
    (∀ ps', current_adherence ps' = current_adherence ps →
      generate_forecast ps' days = generate_forecast ps days) ∧
    (current_adherence ps = 4/5 → i = 10 →
      ((generate_forecast ps days)[i]?).map
          (fun e => (e.predictedAdherence, e.confidenceLower, e.confidenceUpper)) =
        some (79/100, 73/100, 17/20)) := by
  have hidx : (generate_forecast ps days)[i]? =
      some { dayOffset := i
             predictedAdherence :=
               round3 (clamp01 (current_adherence ps - 1/1000 * (i : ℚ)))
             confidenceLower :=
               round3 (max 0 (clamp01 (current_adherence ps - 1/1000 * (i : ℚ)) -
                 (1/20 + 1/1000 * (i : ℚ))))
             confidenceUpper :=
               round3 (min 1 (clamp01 (current_adherence ps - 1/1000 * (i : ℚ)) +
                 (1/20 + 1/1000 * (i : ℚ)))) } := by
    unfold generate_forecast
    rw [List.getElem?_map, List.getElem?_range h]
    rfl
  refine ⟨by simp [generate_forecast], hidx, ?_, ?_⟩
  · intro ps' hca
    unfold generate_forecast
    rw [hca]
  · intro hca hi
    subst hi
    rw [hidx, hca]
    have e1 : clamp01 ((4 : ℚ)/5 - 1/1000 * (10 : ℕ)) = 79/100 := by
      unfold clamp01
      norm_num
    rw [e1]
    have e2 : round3 ((79 : ℚ)/100) = 79/100 := by
      unfold round3 pyRound
      norm_num
    have e3 : round3 (max 0 ((79 : ℚ)/100 - (1/20 + 1/1000 * (10 : ℕ)))) = 73/100 := by
      unfold round3 pyRound
      norm_num
    have e4 : round3 (min 1 ((79 : ℚ)/100 + (1/20 + 1/1000 * (10 : ℕ)))) = 17/20 := by
      unfold round3 pyRound
      norm_num
    rw [e2, e3, e4]
    rfl

/-- Witness for C3 at a concrete input: one patient with adherence 0.8,
a 30-day horizon and day offset 10. -/
theorem C3_forecast_formula_witness :
    ((generate_forecast [{ id := "a", adherenceRate := some (4/5) }] 30)[10]?).map
        (fun e => (e.predictedAdherence, e.confidenceLower, e.confidenceUpper)) =
      some (79/100, 73/100, 17/20) := by
  refine (C3_forecast_formula [{ id := "a", adherenceRate := some (4/5) }] 30 10
    (by norm_num)).2.2.2 ?_ rfl
  unfold current_adherence
  norm_num

/-! ## Lemmas about tallies and the demographics fold -/

theorem tallyCount_bumpTally (t : List (String × ℕ)) (k k' : String) :
    tallyCount (bumpTally t k) k' = tallyCount t k' + (if k = k' then 1 else 0) := by
  induction t with
  | nil =>
      by_cases h : k = k' <;> simp [bumpTally, tallyCount, h]
  | cons e rest ih =>
      obtain ⟨k0, c⟩ := e
      by_cases h0 : k0 = k
      · rw [show bumpTally ((k0, c) :: rest) k = (k0, c + 1) :: rest from by
          simp [bumpTally, h0]]
        by_cases h1 : k0 = k'
        · have hk : k = k' := h0.symm.trans h1
          simp [tallyCount, List.filter_cons, h1, hk] <;> omega
        · have hk : ¬ k = k' := fun hh => h1 (h0.trans hh)
          simp [tallyCount, List.filter_cons, h1, hk] <;> omega
      · rw [show bumpTally ((k0, c) :: rest) k = (k0, c) :: bumpTally rest k from by
          simp [bumpTally, h0]]
        by_cases h1 : k0 = k' <;>
          simp [tallyCount, List.filter_cons, h1] at ih ⊢ <;> omega

theorem tallyCount_foldl_bumpTally (l : List String) (t : List (String × ℕ)) (c : String) :
    tallyCount (l.foldl bumpTally t) c = tallyCount t c + l.count c := by
  induction l generalizing t with
  | nil => simp
  | cons a l ih =>
      rw [List.foldl_cons, ih, tallyCount_bumpTally, List.count_cons]
      by_cases h : a = c <;> simp [h] <;> omega

theorem foldl_demoStep_under30 (ps : List Patient) (d : Demographics) :
    (ps.foldl demoStep d).ageGroups.under30 =
      d.ageGroups.under30 + ps.countP (fun p => decide (p.age.getD 50 < 30)) := by
  induction ps generalizing d with
  | nil => simp
  | cons p t ih =>
      rw [List.foldl_cons, ih, List.countP_cons]
      unfold demoStep
      by_cases h1 : p.age.getD 50 < 30
      · simp [h1]; omega
      · by_cases h2 : p.age.getD 50 < 50 <;> by_cases h3 : p.age.getD 50 < 65 <;>
          simp [h1, h2, h3]

theorem foldl_demoStep_from30to49 (ps : List Patient) (d : Demographics) :
    (ps.foldl demoStep d).ageGroups.from30to49 =
      d.ageGroups.from30to49 +
        ps.countP (fun p => decide (¬ p.age.getD 50 < 30 ∧ p.age.getD 50 < 50)) := by
  induction ps generalizing d with
  | nil => simp
  | cons p t ih =>
      rw [List.foldl_cons, ih, List.countP_cons]
      unfold demoStep
      by_cases h1 : p.age.getD 50 < 30
      · simp [h1]
      · by_cases h2 : p.age.getD 50 < 50
        · simp [h1, h2]; omega
        · by_cases h3 : p.age.getD 50 < 65 <;> simp [h1, h2, h3]

theorem foldl_demoStep_from50to64 (ps : List Patient) (d : Demographics) :
    (ps.foldl demoStep d).ageGroups.from50to64 =
      d.ageGroups.from50to64 +
        ps.countP (fun p =>
          decide (¬ p.age.getD 50 < 30 ∧ ¬ p.age.getD 50 < 50 ∧ p.age.getD 50 < 65)) := by
  induction ps generalizing d with
  | nil => simp
  | cons p t ih =>
      rw [List.foldl_cons, ih, List.countP_cons]
      unfold demoStep
      by_cases h1 : p.age.getD 50 < 30
      · simp [h1]
      · by_cases h2 : p.age.getD 50 < 50
        · simp [h1, h2]
        · by_cases h3 : p.age.getD 50 < 65 <;> simp [h1, h2, h3] <;> omega

theorem foldl_demoStep_from65up (ps : List Patient) (d : Demographics) :
    (ps.foldl demoStep d).ageGroups.from65up =
      d.ageGroups.from65up +
        ps.countP (fun p =>
          decide (¬ p.age.getD 50 < 30 ∧ ¬ p.age.getD 50 < 50 ∧ ¬ p.age.getD 50 < 65)) := by
  induction ps generalizing d with
  | nil => simp
  | cons p t ih =>
      rw [List.foldl_cons, ih, List.countP_cons]
      unfold demoStep
      by_cases h1 : p.age.getD 50 < 30
      · simp [h1]
      · by_cases h2 : p.age.getD 50 < 50
        · simp [h1, h2]
        · by_cases h3 : p.age.getD 50 < 65 <;> simp [h1, h2, h3] <;> omega

theorem foldl_demoStep_gender (ps : List Patient) (d : Demographics) (g : String) :
    tallyCount (ps.foldl demoStep d).genderDistribution g =
      tallyCount d.genderDistribution g +
        ps.countP (fun p => decide (p.gender.getD "Unknown" = g)) := by
  induction ps generalizing d with
  | nil => simp
  | cons p t ih =>
      rw [List.foldl_cons, ih, List.countP_cons]
      show tallyCount (bumpTally d.genderDistribution (p.gender.getD "Unknown")) g + _ = _
      rw [tallyCount_bumpTally]
      by_cases h : p.gender.getD "Unknown" = g <;> simp [h] <;> omega

theorem foldl_demoStep_condition (ps : List Patient) (d : Demographics) (c : String) :
    tallyCount (ps.foldl demoStep d).conditionDistribution c =
      tallyCount d.conditionDistribution c +
        (ps.map (fun p => p.chronicConditions.count c)).sum := by
  induction ps generalizing d with
  | nil => simp
  | cons p t ih =>
      rw [List.foldl_cons, ih]
      show tallyCount (p.chronicConditions.foldl bumpTally d.conditionDistribution) c + _ = _
      rw [tallyCount_foldl_bumpTally]
      simp
      omega

/-- Counterexample to C5 as stated: on a single record with no `age` field,
`calculate_demographics` buckets the patient into '50-64'
(`patient.get('age', 50)` defaults to 50), not into '<30'. -/
theorem C5_counterexample :
    (calculate_demographics [{ id := "a" }]).ageGroups.from50to64 = 1 ∧
      ¬ (calculate_demographics [{ id := "a" }]).ageGroups.under30 = 1 := by
  have h : (calculate_demographics [{ id := "a" }]).ageGroups = ⟨0, 0, 1, 0⟩ := by
    unfold calculate_demographics demoStep
    norm_num
  rw [h]
  exact ⟨rfl, by simp⟩

/-- C5 (amended): the demographics computation buckets each patient's age as
'<30' (age < 30), '30-49' (30 ≤ age < 50), '50-64' (50 ≤ age < 65) or '65+'
(65 ≤ age), where a record with no `age` field is treated as age 50 and
therefore counted in the '50-64' bucket; gender values and chronic-condition
values are tallied as frequency maps; and ages [25, 45, 70] put one patient
in each of '<30', '30-49' and '65+'. -/
theorem C5_demographics (ps : List Patient) :
    ((calculate_demographics ps).ageGroups.under30 =
        ps.countP (fun p => decide (p.age.getD 50 < 30)) ∧
      (calculate_demographics ps).ageGroups.from30to49 =
        ps.countP (fun p => decide (30 ≤ p.age.getD 50 ∧ p.age.getD 50 < 50)) ∧
      (calculate_demographics ps).ageGroups.from50to64 =
        ps.countP (fun p => decide (50 ≤ p.age.getD 50 ∧ p.age.getD 50 < 65)) ∧
      (calculate_demographics ps).ageGroups.from65up =
        ps.countP (fun p => decide (65 ≤ p.age.getD 50))) ∧
    (∀ g, tallyCount (calculate_demographics ps).genderDistribution g =
      ps.countP (fun p => decide (p.gender.getD "Unknown" = g))) ∧
    (∀ c, tallyCount (calculate_demographics ps).conditionDistribution c =
      (ps.map (fun p => p.chronicConditions.count c)).sum) ∧
    (calculate_demographics
      [{ id := "a", age := some 25 }, { id := "b", age := some 45 },
       { id := "c", age := some 70 }]).ageGroups = ⟨1, 1, 0, 1⟩ := by
  refine ⟨⟨?_, ?_, ?_, ?_⟩, ?_, ?_, ?_⟩
  · simpa using foldl_demoStep_under30 ps ⟨⟨0, 0, 0, 0⟩, [], []⟩
  · have h := foldl_demoStep_from30to49 ps ⟨⟨0, 0, 0, 0⟩, [], []⟩
    simp only [calculate_demographics]
    rw [h]
    simp only [Nat.zero_add]
    apply List.countP_congr
    intro p _
    simp only [decide_eq_true_eq]
    constructor <;> intro hp <;> exact ⟨by linarith [hp.1], hp.2⟩
  · have h := foldl_demoStep_from50to64 ps ⟨⟨0, 0, 0, 0⟩, [], []⟩
    simp only [calculate_demographics]
    rw [h]
    simp only [Nat.zero_add]
    apply List.countP_congr
    intro p _
    simp only [decide_eq_true_eq]
    constructor <;> intro hp
    · exact ⟨by linarith [hp.1], hp.2.2⟩
    · exact ⟨by linarith [hp.1], by linarith [hp.1], hp.2⟩
  · have h := foldl_demoStep_from65up ps ⟨⟨0, 0, 0, 0⟩, [], []⟩
    simp only [calculate_demographics]
    rw [h]
    simp only [Nat.zero_add]
    apply List.countP_congr
    intro p _
    simp only [decide_eq_true_eq]
    constructor <;> intro hp
    · exact by linarith [hp.2.2]
    · exact ⟨by linarith, by linarith, by linarith⟩
  · intro g
    have h := foldl_demoStep_gender ps ⟨⟨0, 0, 0, 0⟩, [], []⟩ g
    unfold calculate_demographics
    rw [h]
    simp [tallyCount]
  · intro c
    have h := foldl_demoStep_condition ps ⟨⟨0, 0, 0, 0⟩, [], []⟩ c
    unfold calculate_demographics
    rw [h]
    simp [tallyCount]
  · unfold calculate_demographics demoStep
    norm_num

/-- Witness for C5 at a concrete input: one female patient aged 25 with one
chronic condition. -/
theorem C5_demographics_witness :
    (calculate_demographics
        [{ id := "a", age := some 25, gender := some "F",
           chronicConditions := ["diabetes"] }]).ageGroups.under30 = 1 ∧
      tallyCount (calculate_demographics
        [{ id := "a", age := some 25, gender := some "F",
           chronicConditions := ["diabetes"] }]).genderDistribution "F" = 1 ∧
      tallyCount (calculate_demographics
        [{ id := "a", age := some 25, gender := some "F",
           chronicConditions := ["diabetes"] }]).conditionDistribution "diabetes" = 1 := by
  have h := C5_demographics
    [{ id := "a", age := some 25, gender := some "F",
       chronicConditions := ["diabetes"] }]
  refine ⟨?_, ?_, ?_⟩
  · rw [h.1.1]
    norm_num
  · rw [h.2.1 "F"]
    rfl
  · rw [h.2.2.1 "diabetes"]
    rfl

/-- Counterexample to C6 as stated: in `genai_handler.lambda_handler` a GET
on the POST-only `/genai/chat` path falls through to the shared 404 response,
not to a 405. -/
theorem C6_counterexample :
    genai_router "GET" "/genai/chat" = .failure 404 ∧
      genai_router "GET" "/genai/chat" ≠ .failure 405 := by
  have h : genai_router "GET" "/genai/chat" = .failure 404 := by decide
  exact ⟨h, by rw [h]; simp⟩

/-- C6 (amended): the dashboard handler returns 405 for any non-GET method
and 404 for a GET whose path matches none of its route substrings; the genai
handler, however, returns 404 for every unmatched method+path combination —
an unsupported method, a POST matching no route substring, a GET without
`/context`, and in particular a GET on the POST-only `/genai/chat` path —
and never returns 405. -/
theorem C6_router_statuses :
    (∀ httpMethod path, httpMethod ≠ "GET" →
      dashboard_router httpMethod path = .failure 405) ∧
    (∀ path,
      (strContains path "/metrics" || strContains path "/alerts" ||
        strContains path "/trends" || strContains path "/top-medications") = false →
      dashboard_router "GET" path = .failure 404) ∧
    (∀ httpMethod path, httpMethod ≠ "POST" → httpMethod ≠ "GET" →
      genai_router httpMethod path = .failure 404) ∧
    (∀ path, strContains path "/context" = false →
      genai_router "GET" path = .failure 404) ∧
    (∀ path,
      (strContains path "/chat" || strContains path "/context/reset" ||
        strContains path "/explain" || strContains path "/script") = false →
      genai_router "POST" path = .failure 404) ∧
    genai_router "GET" "/genai/chat" = .failure 404 := by
  refine ⟨?_, ?_, ?_, ?_, ?_, by decide⟩
  · intro m p hm
    simp [dashboard_router, hm]
  · intro p h
    simp only [Bool.or_eq_false_iff] at h
    simp [dashboard_router, h.1.1.1, h.1.1.2, h.1.2, h.2]
  · intro m p h1 h2
    simp [genai_router, h1, h2]
  · intro p h
    simp [genai_router, h]
  · intro p h
    simp only [Bool.or_eq_false_iff] at h
    simp [genai_router, h.1.1.1, h.1.1.2, h.1.2, h.2]

/-- Witness for C6 at concrete inputs: a POST to the dashboard handler is
refused with 405, an unknown dashboard GET path with 404, and the genai
handler answers 404 to an unsupported method, to a GET on the POST-only
chat path, and to a POST on an unknown path. -/
theorem C6_router_statuses_witness :
    dashboard_router "POST" "/dashboard/metrics" = .failure 405 ∧
      dashboard_router "GET" "/dashboard/nope" = .failure 404 ∧
      genai_router "DELETE" "/genai/chat" = .failure 404 ∧
      genai_router "GET" "/genai/chat" = .failure 404 ∧
      genai_router "POST" "/genai/nothing" = .failure 404 :=
  ⟨C6_router_statuses.1 "POST" "/dashboard/metrics" (by decide),
   C6_router_statuses.2.1 "/dashboard/nope" (by decide),
   C6_router_statuses.2.2.1 "DELETE" "/genai/chat" (by decide) (by decide),
   C6_router_statuses.2.2.2.1 "/genai/chat" (by decide),
   C6_router_statuses.2.2.2.2.1 "/genai/nothing" (by decide)⟩

/-- C8: acknowledging an already-acknowledged alert succeeds with no error;
the second call overwrites `acknowledgedAt` / `acknowledgedBy` on the same
stored key, leaves every other field unchanged, and the resulting store is
exactly the store produced by the last acknowledgment alone (idempotent by
key); records at other keys are untouched. -/
theorem C8_acknowledge_idempotent (store : AlertStore) (alertId t1 u1 t2 u2 : String) :
    ((acknowledge_alert (acknowledge_alert store alertId t1 u1).1 alertId t2 u2).1 =
      (acknowledge_alert store alertId t2 u2).1) ∧
    (∀ a, store alertId = some a →
      (acknowledge_alert (acknowledge_alert store alertId t1 u1).1 alertId t2 u2).1 alertId =
        some { a with acknowledgedAt := some t2, acknowledgedBy := some u2 }) ∧
    (∀ k, k ≠ alertId → (acknowledge_alert store alertId t1 u1).1 k = store k) := by
  refine ⟨?_, ?_, ?_⟩
  · funext k
    by_cases hk : k = alertId
    · subst hk
      simp [acknowledge_alert]
    · simp [acknowledge_alert, hk]
  · intro a ha
    simp [acknowledge_alert, ha]
  · intro k hk
    simp [acknowledge_alert, hk]

/-- Witness for C8 at a concrete input: a one-alert store acknowledged twice
keeps the alert's other fields and carries the second acknowledgment. -/
theorem C8_acknowledge_idempotent_witness :
    (acknowledge_alert
        (acknowledge_alert
          (fun k => if k = "alert-1" then
            some { id := "alert-1", severity := some "critical" } else none)
          "alert-1" "2024-01-01" "userA").1
        "alert-1" "2024-01-02" "userB").1 "alert-1" =
      some { id := "alert-1", severity := some "critical",
             acknowledgedAt := some "2024-01-02", acknowledgedBy := some "userB" } :=
  (C8_acknowledge_idempotent
    (fun k => if k = "alert-1" then
      some { id := "alert-1", severity := some "critical" } else none)
    "alert-1" "2024-01-01" "userA" "2024-01-02" "userB").2.1
    { id := "alert-1", severity := some "critical" } (by simp)

/-- Counterexample to C7 as stated: with one record that lacks
`adherence_rate` and one with adherence 0.8, the claim's overall mean (over
defining records only) is 0.8, but `calculate_adherence_trend` divides the
default-0 sum by the total record count and produces a point with rate 0.4 —
not reachable from 0.8 by any perturbation in [-0.05, 0.05]. -/
theorem C7_counterexample :
    ((calculate_adherence_trend
        [{ id := "a" }, { id := "b", adherence_rate := some (4/5) }] 1 (fun _ => 0)).map
      (fun e => e.adherenceRate) = [2/5]) ∧
    ¬ ∃ x : ℚ, -(1/20) ≤ x ∧ x ≤ 1/20 ∧
        (2/5 : ℚ) = round3 (clamp01 (4/5 + x)) := by
  constructor
  · have hb : trendBase [{ id := "a" }, { id := "b", adherence_rate := some (4/5) }] = 2/5 := by
      unfold trendBase
      norm_num
    have hr : round3 (clamp01 (2/5)) = 2/5 := by
      unfold clamp01 round3 pyRound
      norm_num
    simp [calculate_adherence_trend, hb, hr, List.range_succ, Function.comp]
  · rintro ⟨x, hx1, hx2, heq⟩
    have hcl : clamp01 (4/5 + x) = 4/5 + x := by
      unfold clamp01
      rw [min_eq_right (by linarith), max_eq_right (by linarith)]
    rw [hcl] at heq
    have hlow := le_round3 (4/5 + x)
    rw [← heq] at hlow
    linarith

/-- C7 (amended): the adherence trend has exactly `months` points ordered
oldest first (the j-th output point lies `30*(months-1-j)` days in the
past); each point's rate is the *base* rate perturbed by a value in
[-0.05, 0.05], clamped to [0,1] and rounded — where the base rate is the sum
of `adherence_rate` over ALL records (a missing field contributing 0)
divided by the total record count, 0 for the empty list, not the mean over
only the records defining the field. -/
theorem C7_adherence_trend (ps : List Patient) (months : ℕ) (v : ℕ → ℚ)
    (hv : ∀ i, -(1/20) ≤ v i ∧ v i ≤ 1/20) :
    (calculate_adherence_trend ps months v).length = months ∧
    (∀ j, j < months →
      (calculate_adherence_trend ps months v)[j]? =
        some { daysBack := 30 * (months - 1 - j)
               adherenceRate := round3 (clamp01 (trendBase ps + v (months - 1 - j)))
               patientCount := ps.length }) ∧
    (∀ j, j < months → ∃ x, -(1/20) ≤ x ∧ x ≤ 1/20 ∧
      ((calculate_adherence_trend ps months v)[j]?).map (fun e => e.adherenceRate) =
        some (round3 (clamp01 (trendBase ps + x)))) ∧
    ((calculate_adherence_trend ps months v).map (fun e => e.daysBack)).Pairwise
      (fun a b => b < a) ∧
    trendBase ps =
      (if ps = [] then 0
       else (ps.map (fun p => p.adherence_rate.getD 0)).sum / (ps.length : ℚ)) := by
  have hidx : ∀ j, j < months →
      (calculate_adherence_trend ps months v)[j]? =
        some { daysBack := 30 * (months - 1 - j)
               adherenceRate := round3 (clamp01 (trendBase ps + v (months - 1 - j)))
               patientCount := ps.length } := by
    intro j hj
    unfold calculate_adherence_trend
    rw [List.getElem?_reverse (by simpa using hj)]
    rw [List.length_map, List.length_range]
    rw [List.getElem?_map, List.getElem?_range (by omega)]
    rfl
  refine ⟨by simp [calculate_adherence_trend], hidx, ?_, ?_, ?_⟩
  · intro j hj
    exact ⟨v (months - 1 - j), (hv _).1, (hv _).2, by rw [hidx j hj]; rfl⟩
  · have hlist : (calculate_adherence_trend ps months v).map (fun e => e.daysBack) =
        ((List.range months).map (fun i => 30 * i)).reverse := by
      unfold calculate_adherence_trend
      rw [List.map_reverse, List.map_map]
      rfl
    rw [hlist, List.pairwise_reverse, List.pairwise_map]
    exact (List.pairwise_lt_range months).imp (fun h => by omega)
  · unfold trendBase
    rcases ps with _ | ⟨p, t⟩ <;> simp

/-- Witness for C7 at a concrete input: one record with adherence 0.5, one
month, zero perturbation. -/
theorem C7_adherence_trend_witness :
    (calculate_adherence_trend [{ id := "a", adherence_rate := some (1/2) }] 1
      (fun _ => 0)).length = 1 ∧
    (calculate_adherence_trend [{ id := "a", adherence_rate := some (1/2) }] 1
      (fun _ => 0))[0]? =
      some { daysBack := 0, adherenceRate := 1/2, patientCount := 1 } := by
  have h := C7_adherence_trend [{ id := "a", adherence_rate := some (1/2) }] 1
    (fun _ => 0) (by intro i; norm_num)
  refine ⟨h.1, ?_⟩
  rw [h.2.1 0 (by norm_num)]
  norm_num [trendBase, clamp01, round3, pyRound]

/-- C9: `list_patients` sorts the (possibly filtered) patients descending by
risk score and returns exactly the slice from `offset` (inclusive) to
`offset + limit` (exclusive) of that sorted list, with `total` the number of
patients before pagination; on the twenty ranked patients with `limit = 10`,
`offset = 5` it returns exactly the patients ranked 6 through 15. -/
theorem C9_list_patients (ps : List Patient) (q : PatientListQuery) :
    (sorted_patients ps q).Perm (filtered_patients ps q) ∧
    (sorted_patients ps q).Sorted (fun a b => riskOf b ≤ riskOf a) ∧
    (list_patients ps q).total = (filtered_patients ps q).length ∧
    (list_patients ps q).patients = ((sorted_patients ps q).drop q.offset).take q.limit ∧
    (∀ j, j < q.limit →
      ((list_patients ps q).patients)[j]? = (sorted_patients ps q)[q.offset + j]?) ∧
    ((list_patients rankedPatients { limit := 10, offset := 5 }).patients.map
        (fun p => p.id) =
      ["p06", "p07", "p08", "p09", "p10", "p11", "p12", "p13", "p14", "p15"] ∧
     (list_patients rankedPatients { limit := 10, offset := 5 }).total = 20) := by
  refine ⟨List.perm_insertionSort _ _, List.sorted_insertionSort _ _, ?_, rfl, ?_, ?_, ?_⟩
  · exact (List.perm_insertionSort _ _).length_eq
  · intro j hj
    show (((sorted_patients ps q).drop q.offset).take q.limit)[j]? = _
    rw [List.getElem?_take, if_pos hj, List.getElem?_drop]
  · show ((((sorted_patients rankedPatients _).drop 5).take 10).map _) = _
    unfold sorted_patients filtered_patients applyConditionFilter applyRiskFilter
    norm_num [rankedPatients, List.insertionSort, List.orderedInsert, riskOf]
  · show (sorted_patients rankedPatients _).length = 20
    unfold sorted_patients
    rw [(List.perm_insertionSort _ _).length_eq]
    rfl

/-- Witness for C9 at a concrete input: on the twenty ranked patients with
`limit = 10`, `offset = 5`, the first returned patient is the sixth of the
sorted list and the pre-pagination total is 20. -/
theorem C9_list_patients_witness :
    ((list_patients rankedPatients { limit := 10, offset := 5 }).patients)[0]? =
      (sorted_patients rankedPatients { limit := 10, offset := 5 })[5 + 0]? ∧
    (list_patients rankedPatients { limit := 10, offset := 5 }).total = 20 :=
  ⟨(C9_list_patients rankedPatients { limit := 10, offset := 5 }).2.2.2.2.1 0 (by norm_num),
   (C9_list_patients rankedPatients { limit := 10, offset := 5 }).2.2.2.2.2.2⟩

/-! ## Lemmas for `compare_medications` -/

theorem filter_isEmpty_eq_not_any (ps : List Patient) (f : Patient → Bool) :
    (ps.filter f).isEmpty = !(ps.any f) := by
  induction ps with
  | nil => rfl
  | cons p t ih => by_cases h : f p <;> simp [List.filter_cons, h, ih]

theorem compare_foldl (ps : List Patient) (names : List String)
    (acc : List MedComparison) :
    (names.foldl (fun acc n =>
      if n = "" then acc
      else if (ps.filter (fun p => takesMed p n)).isEmpty then acc
      else acc ++ [comparisonEntry ps n]) acc) =
    acc ++ ((names.filter (fun n =>
      !decide (n = "") && ps.any (fun p => takesMed p n))).map (comparisonEntry ps)) := by
  induction names generalizing acc with
  | nil => simp
  | cons n t ih =>
      rw [List.foldl_cons, List.filter_cons]
      by_cases h1 : n = ""
      · simp only [h1, if_pos rfl]
        rw [ih]
        simp
      · rw [if_neg h1]
        by_cases h2 : (ps.filter (fun p => takesMed p n)).isEmpty
        · rw [if_pos h2, ih]
          have hany : ps.any (fun p => takesMed p n) = false := by
            cases hb : ps.any (fun p => takesMed p n) with
            | false => rfl
            | true =>
                have heq := filter_isEmpty_eq_not_any ps (fun p => takesMed p n)
                rw [h2, hb] at heq
                simp at heq
          simp [h1, hany]
        · rw [if_neg h2, ih]
          have hany : ps.any (fun p => takesMed p n) = true := by
            cases hb : ps.any (fun p => takesMed p n) with
            | true => rfl
            | false =>
                have heq := filter_isEmpty_eq_not_any ps (fun p => takesMed p n)
                rw [hb] at heq
                simp only [Bool.not_false] at heq
                exact absurd heq h2
          simp [h1, hany, List.append_assoc]

/-- Counterexample to C10 as stated: requesting the same medication name
twice (`ids=A,A` splits to `['A', 'A']`) produces two comparison entries for
that name, not exactly one entry per requested name. -/
theorem C10_counterexample :
    ((compare_medications
        [{ id := "x", adherenceRate := some (1/2),
           medications := [{ name := some "A" }] }] ["A", "A"]).2.countP
      (fun e => decide (e.medicationName = "A"))) = 2 ∧ (2 : ℕ) ≠ 1 := by
  constructor
  · norm_num [compare_medications, takesMed, comparisonEntry, List.insertionSort,
      List.orderedInsert, round3, pyRound, clamp01, List.countP_cons]
  · norm_num

/-- C10 (amended): `compare_medications` returns status 200 and its
comparison list has exactly one entry per *occurrence* of a requested name
that is non-empty and taken by at least one scanned patient (duplicate
requested names yield duplicate entries); empty names and names no patient
takes are silently skipped, every produced entry has a positive patient
count (so the per-medication mean never divides by zero), and the entries
are sorted descending by `nonAdherenceRate`. -/
theorem C10_compare_medications (ps : List Patient) (names : List String) :
    (compare_medications ps names).1 = 200 ∧
    ((compare_medications ps names).2.Perm
      ((names.filter (fun n =>
        !decide (n = "") && ps.any (fun p => takesMed p n))).map (comparisonEntry ps))) ∧
    ((compare_medications ps names).2.Sorted
      (fun a b => b.nonAdherenceRate ≤ a.nonAdherenceRate)) ∧
    (∀ e ∈ (compare_medications ps names).2, 0 < e.patientCount) ∧
    (∀ n, ((compare_medications ps names).2.countP
        (fun e => decide (e.medicationName = n))) =
      names.countP (fun m =>
        decide (m = n) && (!decide (m = "") && ps.any (fun p => takesMed p m)))) := by
  have hbody : (compare_medications ps names).2 =
      List.insertionSort (fun a b => b.nonAdherenceRate ≤ a.nonAdherenceRate)
        ((names.filter (fun n =>
          !decide (n = "") && ps.any (fun p => takesMed p n))).map (comparisonEntry ps)) := by
    unfold compare_medications
    rw [compare_foldl]
    rfl
  have hperm : (compare_medications ps names).2.Perm
      ((names.filter (fun n =>
        !decide (n = "") && ps.any (fun p => takesMed p n))).map (comparisonEntry ps)) := by
    rw [hbody]
    exact List.perm_insertionSort _ _
  refine ⟨rfl, hperm, ?_, ?_, ?_⟩
  · rw [hbody]
    exact List.sorted_insertionSort _ _
  · intro e he
    have he2 := hperm.mem_iff.mp he
    rw [List.mem_map] at he2
    obtain ⟨n, hn, rfl⟩ := he2
    rw [List.mem_filter] at hn
    have hany : ps.any (fun p => takesMed p n) = true := by
      have := hn.2
      simp only [Bool.and_eq_true] at this
      exact this.2
    rw [List.any_eq_true] at hany
    obtain ⟨p, hp, hpn⟩ := hany
    show 0 < (ps.filter (fun p => takesMed p n)).length
    apply List.length_pos.mpr
    intro hcon
    have : p ∈ ps.filter (fun p => takesMed p n) := List.mem_filter.mpr ⟨hp, hpn⟩
    rw [hcon] at this
    exact List.not_mem_nil p this
  · intro n
    rw [hperm.countP_eq, List.countP_map, List.countP_filter]
    apply List.countP_congr
    intro m _
    simp [comparisonEntry, Bool.and_comm]

/-- Witness for C10 at a concrete input: one patient on medication A; the
request `['A', 'B', '']` produces a 200 response with exactly one entry,
for A. -/
theorem C10_compare_medications_witness :
    (compare_medications
        [{ id := "x", adherenceRate := some (1/2),
           medications := [{ name := some "A" }] }] ["A", "B", ""]).1 = 200 ∧
    ((compare_medications
        [{ id := "x", adherenceRate := some (1/2),
           medications := [{ name := some "A" }] }] ["A", "B", ""]).2.countP
      (fun e => decide (e.medicationName = "A"))) = 1 := by
  refine ⟨(C10_compare_medications
    [{ id := "x", adherenceRate := some (1/2),
       medications := [{ name := some "A" }] }] ["A", "B", ""]).1, ?_⟩
  rw [(C10_compare_medications
    [{ id := "x", adherenceRate := some (1/2),
       medications := [{ name := some "A" }] }] ["A", "B", ""]).2.2.2.2 "A"]
  decide

/-! ## Lemmas for `get_medication_risks` -/

theorem statLookup_cons (k : String) (st : MedStat) (l : List (String × MedStat))
    (m : String) :
    statLookup ((k, st) :: l) m = if k = m then some st else statLookup l m := by
  by_cases h : k = m <;> simp [statLookup, List.find?_cons, h]

theorem statLookup_addOcc (stats : List (String × MedStat)) (n n' : String)
    (adh : ℚ) (high : Bool) :
    statLookup (addOcc stats n adh high) n' =
      if n' = n then
        match statLookup stats n with
        | some st => some ⟨st.total_patients + 1,
            st.high_risk_patients + (if high then 1 else 0), st.adherence_sum + adh⟩
        | none => some ⟨1, if high then 1 else 0, adh⟩
      else statLookup stats n' := by
  induction stats with
  | nil =>
      by_cases h : n' = n
      · subst h
        simp [addOcc, statLookup]
      · have h2 : ¬ (n = n') := fun hh => h hh.symm
        simp [addOcc, statLookup, h, h2]
  | cons e rest ih =>
      obtain ⟨k, st⟩ := e
      by_cases hk : k = n
      · rw [show addOcc ((k, st) :: rest) n adh high =
            (k, ⟨st.total_patients + 1,
              st.high_risk_patients + (if high then 1 else 0),
              st.adherence_sum + adh⟩) :: rest from by simp [addOcc, hk]]
        by_cases h : n' = n
        · have hk' : k = n' := hk.trans h.symm
          simp [statLookup_cons, h, hk', hk]
        · have hk' : ¬ k = n' := fun hh => h (hh.symm.trans hk)
          have h2 : ¬ n = n' := fun hh => h hh.symm
          simp [statLookup_cons, h, hk', hk, h2]
      · rw [show addOcc ((k, st) :: rest) n adh high =
            (k, st) :: addOcc rest n adh high from by simp [addOcc, hk]]
        by_cases h : k = n'
        · have hn : ¬ (n' = n) := fun hh => hk (h.trans hh)
          simp [statLookup_cons, h, hn, hk]
        · simp [statLookup_cons, h, hk, ih]

theorem statKeys_addOcc (stats : List (String × MedStat)) (n : String)
    (adh : ℚ) (high : Bool) :
    statKeys (addOcc stats n adh high) =
      if n ∈ statKeys stats then statKeys stats else statKeys stats ++ [n] := by
  induction stats with
  | nil => simp [addOcc, statKeys]
  | cons e rest ih =>
      obtain ⟨k, st⟩ := e
      by_cases hk : k = n
      · rw [show addOcc ((k, st) :: rest) n adh high =
            (k, ⟨st.total_patients + 1,
              st.high_risk_patients + (if high then 1 else 0),
              st.adherence_sum + adh⟩) :: rest from by simp [addOcc, hk]]
        simp [statKeys, hk]
      · rw [show addOcc ((k, st) :: rest) n adh high =
            (k, st) :: addOcc rest n adh high from by simp [addOcc, hk]]
        have hkn : ¬ (n = k) := fun hh => hk hh.symm
        simp only [statKeys, List.map_cons] at ih ⊢
        rw [ih]
        by_cases hmem : n ∈ rest.map (fun e => e.1) <;>
          simp [hmem, hkn]

theorem statKeys_addOcc_nodup (stats : List (String × MedStat)) (n : String)
    (adh : ℚ) (high : Bool) (h : (statKeys stats).Nodup) :
    (statKeys (addOcc stats n adh high)).Nodup := by
  rw [statKeys_addOcc]
  by_cases hmem : n ∈ statKeys stats
  · simp [hmem, h]
  · simp [hmem, List.nodup_append, h, List.Disjoint]
    intro a ha hcon
    rw [hcon] at ha
    exact hmem ha

theorem statLookup_isSome_iff (stats : List (String × MedStat)) (n : String) :
    (statLookup stats n).isSome = true ↔ n ∈ statKeys stats := by
  induction stats with
  | nil => simp [statLookup, statKeys]
  | cons e rest ih =>
      obtain ⟨k, st⟩ := e
      by_cases h : k = n
      · simp [statLookup, statKeys, List.find?_cons, h]
      · have h2 : ¬ (n = k) := fun hh => h hh.symm
        simp only [statLookup, statKeys, List.find?_cons] at ih ⊢
        simp [h, h2, ih]

theorem medication_stats_eq_foldl_occ (ps : List Patient) :
    medication_stats ps =
      (occList ps).foldl (fun stats o => addOcc stats o.1 o.2.1 o.2.2) [] := by
  suffices h : ∀ init : List (String × MedStat),
      ps.foldl (fun stats p =>
        p.medications.foldl (fun stats m =>
          addOcc stats (medKey m) (p.adherence_rate.getD 0)
            (decide ((7 : ℚ)/10 ≤ p.risk_score.getD 0))) stats) init =
      (occList ps).foldl (fun stats o => addOcc stats o.1 o.2.1 o.2.2) init by
    exact h []
  induction ps with
  | nil => intro init; rfl
  | cons p t ih =>
      intro init
      rw [List.foldl_cons, ih]
      unfold occList
      rw [List.flatMap_cons, List.foldl_append]
      congr 1
      rw [List.foldl_map]

theorem statLookup_foldl_occ (l : List (String × ℚ × Bool))
    (init : List (String × MedStat)) (n : String) :
    statLookup (l.foldl (fun stats o => addOcc stats o.1 o.2.1 o.2.2) init) n =
      match statLookup init n with
      | some st => some ⟨st.total_patients + occCountL l n,
          st.high_risk_patients + occHighL l n, st.adherence_sum + occAdhSumL l n⟩
      | none =>
          if occCountL l n = 0 then none
          else some ⟨occCountL l n, occHighL l n, occAdhSumL l n⟩ := by
  induction l generalizing init with
  | nil =>
      cases h : statLookup init n <;>
        simp [occCountL, occAdhSumL, occHighL, h]
  | cons o t ih =>
      rw [List.foldl_cons, ih, statLookup_addOcc]
      by_cases hn : o.1 = n
      · have hc : occCountL (o :: t) n = occCountL t n + 1 := by
          simp [occCountL, List.countP_cons, hn]
        have hs : occAdhSumL (o :: t) n = o.2.1 + occAdhSumL t n := by
          simp [occAdhSumL, List.filter_cons, hn]
        have hh : occHighL (o :: t) n =
            occHighL t n + (if o.2.2 then 1 else 0) := by
          simp [occHighL, List.filter_cons, hn, List.countP_cons]
        rw [hn, if_pos rfl]
        cases hinit : statLookup init n with
        | some st =>
            simp only [hinit, hc, hs, hh]
            refine congrArg some ?_
            refine (MedStat.mk.injEq _ _ _ _ _ _).mpr
              ⟨by omega, by cases hb : o.2.2 <;> simp [hb] <;> omega, by ring⟩
        | none =>
            simp only [hinit, hc, hs, hh]
            have hne : ¬ (occCountL t n + 1 = 0) := by omega
            rw [if_neg hne]
            refine congrArg some ?_
            refine (MedStat.mk.injEq _ _ _ _ _ _).mpr
              ⟨by omega, by cases hb : o.2.2 <;> simp [hb] <;> omega, by ring⟩
      · have hno : ¬ (n = o.1) := fun hh => hn hh.symm
        rw [if_neg hno]
        have hc : occCountL (o :: t) n = occCountL t n := by
          simp [occCountL, List.countP_cons, hn]
        have hs : occAdhSumL (o :: t) n = occAdhSumL t n := by
          simp [occAdhSumL, List.filter_cons, hn]
        have hh : occHighL (o :: t) n = occHighL t n := by
          simp [occHighL, List.filter_cons, hn]
        rw [hc, hs, hh]

theorem statKeys_foldl_nodup (l : List (String × ℚ × Bool))
    (init : List (String × MedStat)) (h : (statKeys init).Nodup) :
    (statKeys (l.foldl (fun stats o => addOcc stats o.1 o.2.1 o.2.2) init)).Nodup := by
  induction l generalizing init with
  | nil => exact h
  | cons o t ih => exact ih _ (statKeys_addOcc_nodup _ _ _ _ h)

theorem medication_stats_keys_nodup (ps : List Patient) :
    (statKeys (medication_stats ps)).Nodup := by
  rw [medication_stats_eq_foldl_occ]
  exact statKeys_foldl_nodup _ _ (by simp [statKeys])

theorem statLookup_of_mem (stats : List (String × MedStat)) :
    (statKeys stats).Nodup → ∀ n st, (n, st) ∈ stats → statLookup stats n = some st := by
  induction stats with
  | nil =>
      intro _ n st hmem
      cases hmem
  | cons e rest ih =>
      intro hnd n st hmem
      obtain ⟨k, s0⟩ := e
      rw [statLookup_cons]
      have hnd' : ¬ k ∈ statKeys rest ∧ (statKeys rest).Nodup := by
        rw [show statKeys ((k, s0) :: rest) = k :: statKeys rest from rfl,
          List.nodup_cons] at hnd
        exact hnd
      rcases List.mem_cons.mp hmem with heq | hrest
      · rw [Prod.mk.injEq] at heq
        rw [if_pos heq.1.symm, heq.2]
      · have hk : ¬ k = n := by
          intro hkn
          apply hnd'.1
          rw [hkn]
          exact List.mem_map.mpr ⟨(n, st), hrest, rfl⟩
        rw [if_neg hk]
        exact ih hnd'.2 n st hrest

theorem occCountL_occList (ps : List Patient) (n : String) :
    occCountL (occList ps) n = medOccCount ps n := by
  unfold occCountL occList medOccCount
  rw [List.countP_flatMap]
  refine congrArg List.sum ?_
  refine congrArg (fun f => List.map f ps) ?_
  funext p
  rw [Function.comp_apply, List.countP_map]
  rfl

theorem per_patient_adh (meds : List MedEntry) (adh : ℚ) (hi : Bool) (n : String) :
    (((meds.map (fun m => (medKey m, adh, hi))).filter
      (fun o => decide (o.1 = n))).map (fun o => o.2.1)).sum =
    (meds.countP (fun m => decide (medKey m = n)) : ℚ) * adh := by
  induction meds with
  | nil => simp
  | cons m t ih =>
      by_cases h : medKey m = n
      · simp [List.filter_cons, List.countP_cons, h, ih] <;> (push_cast; ring)
      · simp [List.filter_cons, List.countP_cons, h, ih]

theorem occAdhSumL_occList (ps : List Patient) (n : String) :
    occAdhSumL (occList ps) n = medAdhSum ps n := by
  unfold occAdhSumL occList medAdhSum
  induction ps with
  | nil => simp
  | cons p t ih =>
      rw [List.flatMap_cons, List.filter_append, List.map_append, List.sum_append,
        List.map_cons, List.sum_cons]
      rw [show ((List.filter (fun o => decide (o.1 = n))
          (List.map (fun m => (medKey m, p.adherence_rate.getD 0,
            decide ((7 : ℚ)/10 ≤ p.risk_score.getD 0))) p.medications)).map
          (fun o => o.2.1)).sum =
        (p.medications.countP (fun m => decide (medKey m = n)) : ℚ) *
          p.adherence_rate.getD 0 from per_patient_adh _ _ _ _]
      rw [ih]

theorem statLookup_foldl_occ_nil (l : List (String × ℚ × Bool)) (n : String) :
    statLookup (l.foldl (fun stats o => addOcc stats o.1 o.2.1 o.2.2) []) n =
      if occCountL l n = 0 then none
      else some ⟨occCountL l n, occHighL l n, occAdhSumL l n⟩ := by
  rw [statLookup_foldl_occ]
  rfl

theorem medication_stats_lookup (ps : List Patient) (n : String) :
    statLookup (medication_stats ps) n =
      if medOccCount ps n = 0 then none
      else some ⟨medOccCount ps n, occHighL (occList ps) n, medAdhSum ps n⟩ := by
  rw [medication_stats_eq_foldl_occ, statLookup_foldl_occ_nil,
    occCountL_occList, occAdhSumL_occList]

/-- Counterexample to C1 as stated: one patient with adherence 0.7001 on
medication A gives the unrounded non-adherence rate 0.2999, which classifies
as `Medium` (0.2999 < 0.30), while the reported `nonAdherenceRate` rounds to
0.3 — so an entry with `nonAdherenceRate = 0.3 ≥ 0.30` carries riskLevel
`Medium`, not `High` as the claim requires. -/
theorem C1_counterexample :
    ((get_medication_risks
        [{ id := "a", adherence_rate := some (7001/10000),
           medications := [{ name := some "A" }] }]).map
      (fun e => (e.medicationName, e.nonAdherenceRate, e.riskLevel)) =
      [("A", 3/10, "Medium")]) ∧
    ("Medium" : String) ≠ "High" := by
  constructor
  · norm_num [get_medication_risks, medication_stats, addOcc, medKey, riskEntry,
      round3, pyRound, List.insertionSort, List.orderedInsert]
  · simp

/-- C1 (amended): `get_medication_risks` groups medication-list entries by
name (each patient contributing once per matching entry of its `medications`
list, so the mean adherence is the occurrence-weighted mean of
`adherence_rate`); each output entry's `nonAdherenceRate` is 1 minus that
mean rounded to 3 decimals, while its riskLevel classifies the *unrounded*
1 − mean (`High` ≥ 0.30, `Medium` ≥ 0.15, else `Low`), which can disagree
with thresholds applied to the rounded rate; there is exactly one entry per
medication name occurring in the input; the result is sorted descending by
the rounded `nonAdherenceRate`; the empty input yields the empty ranking;
the dashboard metrics summary holds the first 5 entries; and the two-patient
example on medication A (adherence 0.5 and 0.9) yields rate 0.3 and
riskLevel `High`. -/
theorem C1_medication_risk_ranking (ps : List Patient) (v : ℕ → ℚ) :
    (∀ e ∈ get_medication_risks ps,
      0 < medOccCount ps e.medicationName ∧
      e.patientCount = medOccCount ps e.medicationName ∧
      e.nonAdherenceRate = round3 (1 - medAdhSum ps e.medicationName /
        (medOccCount ps e.medicationName : ℚ)) ∧
      e.riskLevel = classifyRisk (1 - medAdhSum ps e.medicationName /
        (medOccCount ps e.medicationName : ℚ))) ∧
    (∀ n, (∃ e ∈ get_medication_risks ps, e.medicationName = n) ↔
      0 < medOccCount ps n) ∧
    ((get_medication_risks ps).map (fun e => e.medicationName)).Nodup ∧
    (get_medication_risks ps).Sorted (fun a b => b.nonAdherenceRate ≤ a.nonAdherenceRate) ∧
    get_medication_risks [] = [] ∧
    (get_dashboard_metrics ps v).topMedications = (get_medication_risks ps).take 5 ∧
    ((get_medication_risks
        [{ id := "a", adherence_rate := some (1/2), medications := [{ name := some "A" }] },
         { id := "b", adherence_rate := some (9/10),
           medications := [{ name := some "A" }] }]).map
      (fun e => (e.medicationName, e.nonAdherenceRate, e.riskLevel)) =
      [("A", 3/10, "High")]) := by
  have hperm : (get_medication_risks ps).Perm
      ((medication_stats ps).map (fun e => riskEntry e.1 e.2)) := by
    unfold get_medication_risks
    exact List.perm_insertionSort _ _
  refine ⟨?_, ?_, ?_, ?_, rfl, rfl, ?_⟩
  · intro e he
    have he2 := hperm.mem_iff.mp he
    rw [List.mem_map] at he2
    obtain ⟨⟨n, st⟩, hmem, rfl⟩ := he2
    have hlk := statLookup_of_mem (medication_stats ps)
      (medication_stats_keys_nodup ps) n st hmem
    rw [medication_stats_lookup] at hlk
    by_cases h0 : medOccCount ps n = 0
    · rw [if_pos h0] at hlk
      cases hlk
    · rw [if_neg h0] at hlk
      have hst : st = ⟨medOccCount ps n, occHighL (occList ps) n, medAdhSum ps n⟩ := by
        injection hlk with hh
        exact hh.symm
      subst hst
      exact ⟨Nat.pos_of_ne_zero h0, rfl, rfl, rfl⟩
  · intro n
    constructor
    · rintro ⟨e, he, hname⟩
      have he2 := hperm.mem_iff.mp he
      rw [List.mem_map] at he2
      obtain ⟨⟨k, st⟩, hmem, rfl⟩ := he2
      have hkn : k = n := hname
      subst hkn
      have hlk := statLookup_of_mem (medication_stats ps)
        (medication_stats_keys_nodup ps) k st hmem
      rw [medication_stats_lookup] at hlk
      by_cases h0 : medOccCount ps k = 0
      · rw [if_pos h0] at hlk
        cases hlk
      · exact Nat.pos_of_ne_zero h0
    · intro hpos
      have h0 : ¬ medOccCount ps n = 0 := by omega
      have hlk := medication_stats_lookup ps n
      rw [if_neg h0] at hlk
      unfold statLookup at hlk
      cases hf : (medication_stats ps).find? (fun e => decide (e.1 = n)) with
      | none =>
          rw [hf] at hlk
          cases hlk
      | some e' =>
          have hmem := List.mem_of_find?_eq_some hf
          have hkey : e'.1 = n := by simpa using List.find?_some hf
          exact ⟨riskEntry e'.1 e'.2,
            hperm.mem_iff.mpr (List.mem_map.mpr ⟨e', hmem, rfl⟩), hkey⟩
  · have hm := hperm.map (fun e => e.medicationName)
    rw [List.map_map] at hm
    have hkeys : ((fun (e : MedRisk) => e.medicationName) ∘
        (fun (e : String × MedStat) => riskEntry e.1 e.2)) = fun e => e.1 := rfl
    rw [hkeys] at hm
    exact (hm.nodup_iff).mpr (medication_stats_keys_nodup ps)
  · unfold get_medication_risks
    exact List.sorted_insertionSort _ _
  · norm_num [get_medication_risks, medication_stats, addOcc, medKey, riskEntry,
      round3, pyRound, List.insertionSort, List.orderedInsert]

/-- Witness for C1 at a concrete input: the two-patient example on
medication A with adherence 0.5 and 0.9 has a ranking with one entry, of
rate 0.3, riskLevel `High`; its per-occurrence count at name A is 2. -/
theorem C1_medication_risk_ranking_witness :
    ((get_medication_risks
        [{ id := "a", adherence_rate := some (1/2), medications := [{ name := some "A" }] },
         { id := "b", adherence_rate := some (9/10),
           medications := [{ name := some "A" }] }]).map
      (fun e => (e.medicationName, e.nonAdherenceRate, e.riskLevel)) =
      [("A", 3/10, "High")]) ∧
    ((∃ e ∈ get_medication_risks
        [{ id := "a", adherence_rate := some (1/2), medications := [{ name := some "A" }] },
         { id := "b", adherence_rate := some (9/10),
           medications := [{ name := some "A" }] }], e.medicationName = "A") ↔
      0 < medOccCount
        [{ id := "a", adherence_rate := some (1/2), medications := [{ name := some "A" }] },
         { id := "b", adherence_rate := some (9/10),
           medications := [{ name := some "A" }] }] "A") :=
  ⟨(C1_medication_risk_ranking [] (fun _ => 0)).2.2.2.2.2.2,
   (C1_medication_risk_ranking
      [{ id := "a", adherence_rate := some (1/2), medications := [{ name := some "A" }] },
       { id := "b", adherence_rate := some (9/10),
         medications := [{ name := some "A" }] }] (fun _ => 0)).2.1 "A"⟩

end MLOps
